import Mathlib

/-!
Verification of the receipt-recognizer-client core against its source.

The Python modules `client.py`, `pdf_processor.py`, `version.py`,
`exceptions.py` and `constants.py` are shallowly embedded below.  Python
dictionaries become association lists over a `Value` type, Python exceptions
become `Except`, and the two external libraries the code calls into —
PyMuPDF (`fitz`) and `requests` — are modelled by their observable outcomes
(an abstract `PdfExtract` record, an abstract `HttpOutcome`).  The `re`
module is modelled by an abstract search-engine parameter plus a concrete
backtracking matcher implementing the six built-in receipt patterns.
-/

/-- A Python value as it occurs in the recognition dictionaries:
`None`, booleans, strings, numbers (modelled as rationals) and nested
dictionaries. -/
inductive Value where
  | null : Value
  | bool : Bool → Value
  | str : String → Value
  | num : ℚ → Value
  | vdict : List (String × Value) → Value
  | vlist : List Value → Value

/-- A Python dict with string keys, as an association list (insertion
order preserved, as in Python 3.7+). -/
abbrev Dict := List (String × Value)

/-- Lookup `d[k]`: first binding of `k`, if any. -/
def dictGet (d : Dict) (k : String) : Option Value :=
  match d with
  | [] => none
  | (k', v') :: t => if k' == k then some v' else dictGet t k

/-- Assignment `d[k] = v`: overwrite the existing binding in place, else
append a new one at the end (Python dict semantics). -/
def dictSet (d : Dict) (k : String) (v : Value) : Dict :=
  match d with
  | [] => [(k, v)]
  | (k', v') :: t => if k' == k then (k, v) :: t else (k', v') :: dictSet t k v

/-- Membership test `k in d`. -/
def dictContains (d : Dict) (k : String) : Bool :=
  (dictGet d k).isSome

/-- Lift an optional string to a `Value` (Python `str` or `None`). -/
def optToVal : Option String → Value
  | some s => Value.str s
  | none => Value.null

/-- Read a `Value` back as an optional string; non-strings give `none`
(only `str` and `null` occur at the call sites below). -/
def asOptStr : Value → Option String
  | Value.str s => some s
  | _ => none

/-- Read a `Value` back as a dict; non-dicts give the empty dict (the
call sites below only ever store dicts in those positions). -/
def asDict : Value → Dict
  | Value.vdict d => d
  | _ => []

/-- Python truthiness of an optional string: `None` and `""` are falsy. -/
def pyTruthyStr : Option String → Bool
  | none => false
  | some s => !(s == "")

/-! ## constants.py -/

/-- The `BASE_FIELDS` list from `constants.py`: the five required base fields, in
declaration order. -/
def BASE_FIELDS : List String :=
  [("source"), ("destination"), ("amount"), ("fee"), ("date")]

/-! ## client.py: result validation -/

/-- The per-field test of `ReceiptRecognizerClient._validate_result`:
a base field is missing when it is absent from the dict or bound to
`None` (`field not in result or result[field] is None`). -/
def fieldMissing (result : Dict) (f : String) : Bool :=
  match dictGet result f with
  | none => true
  | some Value.null => true
  | some _ => false

/-- Model of `ReceiptRecognizerClient._validate_result`: collect every missing
base field, then raise a `ValidationError` naming all of them,
comma-joined, if any; the error is modelled as `Except.error` carrying
the message. -/
def validate_result (result : Dict) : Except String Unit :=
  let missing_fields := BASE_FIELDS.filter (fieldMissing result)
  if missing_fields.isEmpty then Except.ok ()
  else Except.error (("Missing required fields: ") ++ String.intercalate (", ") missing_fields)

/-! ## client.py: date/time combination -/

/-- Model of `ReceiptRecognizerClient._combine_date_time`: `None` unless the date
is truthy; `<date>T<time>` when the time is also truthy; the date alone
otherwise. -/
def combine_date_time (date_str time_str : Option String) : Option String :=
  if pyTruthyStr date_str = false then none
  else if pyTruthyStr time_str then
    some ((date_str.getD ("")) ++ ("T") ++ (time_str.getD ("")))
  else date_str

/-! ## exceptions.py and version.py -/

/-- The `VersionMismatchError` of `exceptions.py`: carries both version
strings and a message (the constructor below is always called with a
non-empty message, as in `version.py`). -/
structure VersionMismatchError where
  client_version : String
  server_version : String
  message : String

/-- Python `v.split('.')[0]`: the leading dot-delimited component of a
version string (the whole string when it has no dot). -/
def major_component (v : String) : String :=
  String.mk (v.toList.takeWhile (fun c => c != ('.')))

/-- Model of `check_compatibility` from `version.py`: compare the leading
dot-delimited components as strings; raise `VersionMismatchError` when
they differ, return `True` otherwise. -/
def check_compatibility (client_version server_version : String) :
    Except VersionMismatchError Bool :=
  let client_major := major_component client_version
  let server_major := major_component server_version
  if client_major ≠ server_major then
    Except.error
      { client_version := client_version
        server_version := server_version
        message := ("Incompatible versions. Client v") ++ client_major ++
          (".x.x cannot work with server v") ++ server_major ++
          (".x.x. Please install matching version.") }
  else Except.ok true

/-- The proposition that `pat` occurs as a contiguous substring of `s`. -/
def ContainsSub (pat s : String) : Prop :=
  ∃ a b, s = a ++ pat ++ b

/-! ## pdf_processor.py: the pattern extractor

Python's `re` module is an external library.  The pattern loop is
parametrised over an abstract search engine; `receiptSearch` below
instantiates it with a concrete backtracking matcher for the six
built-in receipt patterns. -/

/-- Flags of a `re.search` call; the source always passes
`re.IGNORECASE | re.MULTILINE`. -/
structure ReFlags where
  ignorecase : Bool
  multiline : Bool

/-- The observable part of a Python `re.Match`: `m.group(0)` and the
tuple `m.groups()` (one entry per capturing group; `None` for a group
that did not participate in the match). -/
structure ReMatch where
  group0 : String
  groups : List (Option String)

/-- An abstract `re.search`: pattern string, subject text and flags to
optional match. -/
abbrev ReEngine := String → String → ReFlags → Option ReMatch

/-- The flag set `re.IGNORECASE | re.MULTILINE` used by
`PDFProcessor.find_text_by_patterns`. -/
def IC_ML : ReFlags := { ignorecase := true, multiline := true }

/-- Model of `match.group(1) if match.groups() else match.group(0)` from
`PDFProcessor.find_text_by_patterns`. -/
def matchValue (m : ReMatch) : Option String :=
  match m.groups with
  | [] => some m.group0
  | g :: _ => g

/-- The pattern loop of `PDFProcessor.find_text_by_patterns` (its
preceding `extract_text_from_pdf` call is threaded in by
`process_receipt_pdf` below): each named pattern is searched
independently with `IGNORECASE | MULTILINE`; a match stores group 1
(or the whole match when the pattern has no groups), a non-match stores
`None`; the loop never raises. -/
def find_text_by_patterns (search : ReEngine) (text : String)
    (patterns : List (String × String)) : Dict :=
  patterns.foldl
    (fun result fp =>
      match search fp.2 text IC_ML with
      | some m => dictSet result fp.1 (optToVal (matchValue m))
      | none => dictSet result fp.1 Value.null)
    []

/-! ### A concrete matcher for the six built-in patterns -/

/-- Case-fold one character as Python `str.lower` does on the alphabets
the source's patterns and bank markers use: ASCII letters and Russian
Cyrillic (А–Я, Ё). -/
def pyLowerChar (c : Char) : Char :=
  if 0x410 ≤ c.toNat ∧ c.toNat ≤ 0x42F then Char.ofNat (c.toNat + 0x20)
  else if c.toNat = 0x401 then Char.ofNat 0x451
  else c.toLower

/-- Python `str.lower` over a whole string (restricted as above). -/
def pyLower (s : String) : String :=
  String.mk (s.toList.map pyLowerChar)

/-- Test whether `pat` is a prefix of `s` (character lists). -/
def listStarts : List Char → List Char → Bool
  | [], _ => true
  | _ :: _, [] => false
  | a :: p, c :: s => a == c && listStarts p s

/-- Test whether `pat` occurs inside `s` (character lists). -/
def listInfix (pat : List Char) : List Char → Bool
  | [] => pat.isEmpty
  | c :: t => listStarts pat (c :: t) || listInfix pat t

/-- Python `pat in s` substring membership. -/
def pyIn (pat s : String) : Bool :=
  listInfix pat.toList s.toList

/-- Regular-expression ASTs covering exactly the constructs the six
built-in receipt patterns use: literals, single-character classes with
greedy counted repetition (`*`, `+`, `?`, braces), sequencing, ordered
alternation, option and one capturing group. -/
inductive RE where
  | lit : String → RE
  | cls : (Char → Bool) → RE
  | seq : RE → RE → RE
  | alt : RE → RE → RE
  | opt : RE → RE
  | rep : Nat → Option Nat → (Char → Bool) → RE
  | grp : RE → RE

/-- Matcher state: remaining input and the capture of group 1 so far. -/
abbrev ReRes := Option (List Char × Option String)

/-- Matcher continuation. -/
abbrev ReK := List Char → Option String → ReRes

/-- Character comparison, case-insensitive when `ic` is set. -/
def charEqCI (ic : Bool) (a b : Char) : Bool :=
  if ic then pyLowerChar a == pyLowerChar b else a == b

/-- Consume a literal from the input. -/
def litConsume (ic : Bool) : List Char → List Char → Option (List Char)
  | [], rest => some rest
  | _ :: _, [] => none
  | a :: s, c :: cs => if charEqCI ic a c then litConsume ic s cs else none

/-- Length of the maximal prefix of characters in class `p`. -/
def countClass (p : Char → Bool) : List Char → Nat
  | [] => 0
  | c :: t => if p c then countClass p t + 1 else 0

/-- Greedy backtracking for a counted class repetition: try consuming
`n` characters, then `n - 1`, …, down to `lo` (all `≤ n` prefixes lie in
the class by construction of the initial `n`). -/
def repBT (cs : List Char) (cap : Option String) (k : ReK) (lo : Nat) : Nat → ReRes
  | 0 => if lo = 0 then k cs cap else none
  | n + 1 =>
    if n + 1 < lo then none
    else
      match k (cs.drop (n + 1)) cap with
      | some r => some r
      | none => repBT cs cap k lo n

/-- Backtracking matcher in continuation style, following Python's
leftmost greedy semantics for these constructs.  A capturing group
records the exact slice of input its body consumed. -/
def reM (ic : Bool) : RE → List Char → Option String → ReK → ReRes
  | RE.lit s, cs, cap, k =>
    match litConsume ic s.toList cs with
    | some rest => k rest cap
    | none => none
  | RE.cls p, cs, cap, k =>
    match cs with
    | [] => none
    | c :: rest => if p c then k rest cap else none
  | RE.seq a b, cs, cap, k => reM ic a cs cap (fun rest cap2 => reM ic b rest cap2 k)
  | RE.alt a b, cs, cap, k =>
    match reM ic a cs cap k with
    | some r => some r
    | none => reM ic b cs cap k
  | RE.opt a, cs, cap, k =>
    match reM ic a cs cap k with
    | some r => some r
    | none => k cs cap
  | RE.rep lo hi p, cs, cap, k =>
    let mx :=
      match hi with
      | some h => min (countClass p cs) h
      | none => countClass p cs
    repBT cs cap k lo mx
  | RE.grp a, cs, cap, k =>
    reM ic a cs cap (fun rest _ =>
      k rest (some (String.mk (cs.take (cs.length - rest.length)))))

/-- The `re.search` position scan: try to match at each successive start
position; the first (leftmost) success wins.  Returns the whole match
and the group-1 capture. -/
def searchFrom (ic : Bool) (r : RE) : List Char → Option (String × Option String)
  | [] =>
    (reM ic r [] none (fun rest cap => some (rest, cap))).map
      (fun rc => ((""), rc.2))
  | c :: t =>
    match reM ic r (c :: t) none (fun rest cap => some (rest, cap)) with
    | some (rest, cap) =>
      some (String.mk ((c :: t).take ((c :: t).length - rest.length)), cap)
    | none => searchFrom ic r t

/-- Model of `re.search(pattern, text, flags)` for a pattern given as an AST.
The `MULTILINE` flag only affects `^`/`$`, which none of the six
patterns contain, so it is a no-op here. -/
def reSearch (r : RE) (flags : ReFlags) (text : String) :
    Option (String × Option String) :=
  searchFrom flags.ignorecase r text.toList

/-- Class `\d` (the source's texts use ASCII digits). -/
def isDigitC (c : Char) : Bool := c.isDigit

/-- Class `\s` (ASCII whitespace, as used by the source's texts). -/
def isSpaceC (c : Char) : Bool :=
  c == ' ' || c == '\t' || c == '\n' || c == '\r' || c == '\x0b' || c == '\x0c'

/-- Class `[.,]`. -/
def isDotComma (c : Char) : Bool := c == '.' || c == ','

/-- Class `[-./]`. -/
def isDateSep (c : Char) : Bool := c == '-' || c == '.' || c == '/'

/-- Class `[\s:]`. -/
def isSpaceColon (c : Char) : Bool := isSpaceC c || c == ':'

/-- Pattern `\d+[.,]\d` twice: a two-decimal amount, the group body shared by the
`amount` and `commission` patterns. -/
def numTwoRE : RE :=
  RE.seq (RE.rep 1 none isDigitC) (RE.seq (RE.cls isDotComma) (RE.rep 2 (some 2) isDigitC))

/-- The `amount` receipt pattern as an AST. -/
def amountRE : RE :=
  RE.seq (RE.grp numTwoRE)
    (RE.seq (RE.rep 0 none isSpaceC)
      (RE.alt (RE.lit ("руб"))
        (RE.alt (RE.lit ("RUB")) (RE.alt (RE.lit ("₽")) (RE.lit ("р."))))))

/-- The `card_number` receipt pattern as an AST. -/
def card_numberRE : RE :=
  RE.grp (RE.seq (RE.lit ("****"))
    (RE.seq (RE.rep 0 none isSpaceC) (RE.rep 4 (some 4) isDigitC)))

/-- The `date` receipt pattern as an AST. -/
def dateRE : RE :=
  RE.grp (RE.seq (RE.rep 1 (some 2) isDigitC) (RE.seq (RE.cls isDateSep)
    (RE.seq (RE.rep 1 (some 2) isDigitC)
      (RE.seq (RE.cls isDateSep) (RE.rep 2 (some 4) isDigitC)))))

/-- The `time` receipt pattern as an AST. -/
def timeRE : RE :=
  RE.grp (RE.seq (RE.rep 1 (some 2) isDigitC) (RE.seq (RE.lit (":"))
    (RE.seq (RE.rep 2 (some 2) isDigitC)
      (RE.opt (RE.seq (RE.lit (":")) (RE.rep 2 (some 2) isDigitC))))))

/-- The `operation_id` receipt pattern as an AST. -/
def operation_idRE : RE :=
  RE.seq (RE.alt (RE.lit ("№")) (RE.alt (RE.lit ("#")) (RE.lit ("номер"))))
    (RE.seq (RE.rep 0 none isSpaceColon) (RE.grp (RE.rep 1 none isDigitC)))

/-- The `commission` receipt pattern as an AST. -/
def commissionRE : RE :=
  RE.seq (RE.lit ("комисс")) (RE.seq (RE.opt (RE.lit ("ия")))
    (RE.seq (RE.rep 0 none isSpaceColon) (RE.grp numTwoRE)))

/-- The `amount` pattern string from `RECEIPT_PATTERNS` (`\x7b`/`\x7d`
encode the brace characters of the source's repetition counts). -/
def amountPat : String := "(\\d+[.,]\\d\x7b2\x7d)\\s*(?:руб|RUB|₽|р\\.)"

/-- The `card_number` pattern string from `RECEIPT_PATTERNS`. -/
def card_numberPat : String := "(\\*\\*\\*\\*\\s*\\d\x7b4\x7d)"

/-- The `date` pattern string from `RECEIPT_PATTERNS`. -/
def datePat : String := "(\\d\x7b1,2\x7d[-./]\\d\x7b1,2\x7d[-./]\\d\x7b2,4\x7d)"

/-- The `time` pattern string from `RECEIPT_PATTERNS`. -/
def timePat : String := "(\\d\x7b1,2\x7d:\\d\x7b2\x7d(?::\\d\x7b2\x7d)?)"

/-- The `operation_id` pattern string from `RECEIPT_PATTERNS`. -/
def operation_idPat : String := "(?:№|#|номер)[\\s:]*(\\d+)"

/-- The `commission` pattern string from `RECEIPT_PATTERNS`. -/
def commissionPat : String := "комисс(?:ия)?[\\s:]*(\\d+[.,]\\d\x7b2\x7d)"

/-- The `RECEIPT_PATTERNS` table of `pdf_processor.py`: field name to pattern
string, in source order. -/
def RECEIPT_PATTERNS : List (String × String) :=
  [(("amount"), amountPat),
   (("card_number"), card_numberPat),
   (("date"), datePat),
   (("time"), timePat),
   (("operation_id"), operation_idPat),
   (("commission"), commissionPat)]

/-- The compiled form of each built-in pattern string. -/
def RECEIPT_RES : List (String × RE) :=
  [(amountPat, amountRE),
   (card_numberPat, card_numberRE),
   (datePat, dateRE),
   (timePat, timeRE),
   (operation_idPat, operation_idRE),
   (commissionPat, commissionRE)]

/-- A concrete `ReEngine` implementing `re.search` for the six built-in
receipt patterns (each has exactly one capturing group, so `groups` is a
one-element tuple); unknown pattern strings find nothing. -/
def receiptSearch : ReEngine := fun pattern text flags =>
  match RECEIPT_RES.find? (fun p => p.1 == pattern) with
  | some pr => (reSearch pr.2 flags text).map (fun m => { group0 := m.1, groups := [m.2] })
  | none => none

/-! ## pdf_processor.py: document-level processing

PyMuPDF (`fitz`) is an external library; each fitz-backed extractor is
modelled by its observable outcome (the value it returns, or the
message of the exception it raises). -/

/-- The outcomes of the fitz-backed extractors for one document:
`pages` holds the per-page `page.get_text()` strings that
`is_searchable_pdf` concatenates (an `open`/parse failure is its
`error` case); `extract_text` is the outcome of `extract_text_from_pdf`
and `positioned` that of `extract_text_with_positions`. -/
structure PdfExtract where
  pages : Except String (List String)
  extract_text : Except String String
  positioned : Except String Value

/-- Python `str.strip()`. -/
def pyStrip (s : String) : String :=
  String.mk (((s.toList.dropWhile Char.isWhitespace).reverse.dropWhile
    Char.isWhitespace).reverse)

/-- Model of `PDFProcessor.is_searchable_pdf`: concatenate the text of the first
up to three pages and test whether the stripped length exceeds 50; any
failure to open or parse the document gives `False` (the bare `except`
never raises). -/
def is_searchable_pdf (pe : PdfExtract) : Bool :=
  match pe.pages with
  | Except.error _ => false
  | Except.ok pages => (pyStrip (String.join (pages.take 3))).length > 50

/-- The bank-sniffing chain of `process_receipt_pdf`: substring tests
on the lower-cased full text, in source order; the first match wins. -/
def sniff_bank (full_text : String) : Option String :=
  let text_lower := pyLower full_text
  if pyIn ("сбер") text_lower || pyIn ("sber") text_lower then some ("Сбербанк")
  else if pyIn ("тинькофф") text_lower || pyIn ("tinkoff") text_lower then some ("Тинькофф")
  else if pyIn ("альфа") text_lower || pyIn ("alfa") text_lower then some ("Альфа-банк")
  else if pyIn ("втб") text_lower then some ("ВТБ")
  else none

/-- The body of `process_receipt_pdf` inside its `try`: build the result
dict, then (when requested) run the built-in patterns — whose own
`extract_text_from_pdf` call can raise — and sniff the bank. -/
def process_receipt_pdf_body (search : ReEngine) (pe : PdfExtract)
    (use_patterns : Bool) : Except String Dict := do
  let full_text ← pe.extract_text
  let positioned ← pe.positioned
  let result : Dict :=
    [(("full_text"), Value.str full_text),
     (("positioned_text"), positioned),
     (("is_searchable"), Value.bool (is_searchable_pdf pe))]
  if use_patterns then
    let text ← pe.extract_text
    let pattern_results := find_text_by_patterns search text RECEIPT_PATTERNS
    let result := dictSet result ("extracted") (Value.vdict pattern_results)
    match sniff_bank full_text with
    | some b => pure (dictSet result ("bank") (Value.str b))
    | none => pure result
  else
    pure result

/-- Model of `process_receipt_pdf` from `pdf_processor.py`: the `except` branch
converts any raised extraction error into an error/failure dict. -/
def process_receipt_pdf (search : ReEngine) (pe : PdfExtract)
    (use_patterns : Bool) : Dict :=
  match process_receipt_pdf_body search pe use_patterns with
  | Except.ok d => d
  | Except.error e => [(("error"), Value.str e), (("success"), Value.bool false)]

/-! ## client.py: the local PDF path -/

/-- The `mapped_result` block of
`ReceiptRecognizerClient._process_pdf_locally`: sender/receiver are left
`None`, amount and fee copy the raw pattern matches, date combines the
extracted date and time, bank copies the sniffed bank, and the whole
extraction dict is kept under `raw_extracted`. -/
def mapped_result (extracted : Dict) (result : Dict) : Dict :=
  [(("source"), Value.null),
   (("destination"), Value.null),
   (("amount"), (dictGet extracted ("amount")).getD Value.null),
   (("fee"), (dictGet extracted ("commission")).getD Value.null),
   (("date"), optToVal (combine_date_time
      (asOptStr ((dictGet extracted ("date")).getD Value.null))
      (asOptStr ((dictGet extracted ("time")).getD Value.null)))),
   (("bank"), (dictGet result ("bank")).getD Value.null),
   (("raw_extracted"), Value.vdict extracted)]

/-- The tail of `_process_pdf_locally` on the searchable branch: tag the
processed dict with provenance, scan flag and success, and attach the
base-field mapping when pattern results are present. -/
def tag_local_result (r : Dict) : Dict :=
  let result := dictSet r ("source") (Value.str ("pdf"))
  let result := dictSet result ("is_scanned") (Value.bool false)
  let result := dictSet result ("success") (Value.bool (!(dictContains result ("error"))))
  if dictContains result ("extracted") then
    dictSet result ("mapped")
      (Value.vdict (mapped_result
        (asDict ((dictGet result ("extracted")).getD Value.null)) result))
  else result

/-- Model of `ReceiptRecognizerClient._process_pdf_locally`: short-circuit on a
non-searchable document, otherwise tag the processed result with
provenance, scan flag, success and the base-field mapping.  Its
`try/except` converts any exception into a failure dict; in this model
every sub-step is total (each callee catches internally, exactly as in
the source), so a dict is returned on every input. -/
def process_pdf_locally (search : ReEngine) (pe : PdfExtract) : Dict :=
  if is_searchable_pdf pe = false then
    [(("success"), Value.bool false),
     (("error"), Value.str ("PDF содержит сканированное изображение. Требуется OCR.")),
     (("source"), Value.str ("pdf")),
     (("is_scanned"), Value.bool true)]
  else
    tag_local_result (process_receipt_pdf search pe true)

/-! ## client.py: the remote path -/

/-- A `requests.Response` as `_send_to_api` observes it: status code and
the outcome of `response.json()` (a parsed JSON object, or the message
of a `json.JSONDecodeError`).  Non-object JSON bodies do not occur in
the modelled flows. -/
structure HttpResponse where
  status_code : Nat
  json : Except String Dict

/-- The outcome of the `requests.post` call inside `_send_to_api`: a
response, or a raised `requests.exceptions.RequestException`. -/
inductive HttpOutcome where
  | resp : HttpResponse → HttpOutcome
  | requestException : String → HttpOutcome

/-- The typed errors `_send_to_api` raises (from `exceptions.py`):
`APIError` and `ValidationError`, each carrying its message. -/
inductive ClientError where
  | apiError : String → ClientError
  | validationError : String → ClientError

/-- Python `str()` of a `Value`, as the f-string building the `APIError`
message renders `error_data.get('error', ...)` (only strings occur in
the modelled flows; the remaining constructors are rendered
approximately). -/
def pyStr : Value → String
  | Value.null => ("None")
  | Value.bool true => ("True")
  | Value.bool false => ("False")
  | Value.str s => s
  | Value.num q => toString q
  | Value.vdict _ => ("dict")
  | Value.vlist _ => ("list")

/-- The `APIError` message of a non-200 response:
`f"API Error {status}: {error}"` with the body's
`error_data.get('error', 'Unknown error')`. -/
def api_error_message (status_code : Nat) (error_data : Dict) : String :=
  ("API Error ") ++ toString status_code ++ (": ") ++
    pyStr ((dictGet error_data ("error")).getD (Value.str ("Unknown error")))

/-- Model of `ReceiptRecognizerClient._send_to_api` after the request has been
issued: a non-200 response, a network failure and an undecodable JSON
body each raise `APIError`; on 200 the body's `data` object (default
`{}`) is validated — raising `ValidationError` when base fields are
missing — and returned. -/
def send_to_api (outcome : HttpOutcome) : Except ClientError Dict :=
  match outcome with
  | HttpOutcome.requestException m =>
    Except.error (ClientError.apiError (("Network error: ") ++ m))
  | HttpOutcome.resp r =>
    if r.status_code ≠ 200 then
      match r.json with
      | Except.ok error_data =>
        Except.error (ClientError.apiError (api_error_message r.status_code error_data))
      | Except.error jm =>
        Except.error (ClientError.apiError (("Invalid JSON response: ") ++ jm))
    else
      match r.json with
      | Except.ok result =>
        let data := asDict ((dictGet result ("data")).getD (Value.vdict []))
        match validate_result data with
        | Except.ok _ => Except.ok data
        | Except.error vm => Except.error (ClientError.validationError vm)
      | Except.error jm =>
        Except.error (ClientError.apiError (("Invalid JSON response: ") ++ jm))

/-! ## Concrete documents used by the scenario claims -/

/-- The text of the searchable scenario receipt: it contains
`Комиссия: 87.00` and `8700.00 руб`, no sender/receiver markers, no
bank markers, and is longer than 50 characters. -/
def scenarioText : String :=
  "Квитанция о переводе средств клиенту другого банка\nКомиссия: 87.00\nИтого списано 8700.00 руб"

/-- The scenario receipt as extraction outcomes: every extractor
succeeds and sees `scenarioText`. -/
def scenarioPdf : PdfExtract :=
  { pages := Except.ok [scenarioText]
    extract_text := Except.ok scenarioText
    positioned := Except.ok (Value.vlist []) }

/-! ## Helper lemmas -/

theorem strAppend_assoc (a b c : String) : (a ++ b) ++ c = a ++ (b ++ c) := by
  rcases a with ⟨la⟩; rcases b with ⟨lb⟩; rcases c with ⟨lc⟩
  exact congrArg String.mk (List.append_assoc la lb lc)

theorem filter_isEmpty_iff (l : List String) (p : String → Bool) :
    (l.filter p).isEmpty = true ↔ ∀ x ∈ l, p x = false := by
  induction l with
  | nil => simp
  | cons h t ih =>
    by_cases hp : p h <;> simp [List.filter_cons, hp, ih]

theorem fieldMissing_false_iff (result : Dict) (f : String) :
    fieldMissing result f = false ↔
      ∃ v, dictGet result f = some v ∧ v ≠ Value.null := by
  unfold fieldMissing
  cases h : dictGet result f with
  | none => simp
  | some v => cases v <;> simp

theorem validate_result_ok_iff_bool (result : Dict) :
    validate_result result = Except.ok () ↔
      ∀ f ∈ BASE_FIELDS, fieldMissing result f = false := by
  unfold validate_result
  by_cases h : (BASE_FIELDS.filter (fieldMissing result)).isEmpty
  · simp only [h, if_true]
    simpa using (filter_isEmpty_iff BASE_FIELDS (fieldMissing result)).mp h
  · have hnot : ¬ ∀ f ∈ BASE_FIELDS, fieldMissing result f = false :=
      fun hall => h ((filter_isEmpty_iff BASE_FIELDS (fieldMissing result)).mpr hall)
    simp only [h, if_false]
    simp [hnot]

/-! ## The claims -/

/-- C1: `_validate_result` succeeds exactly when each of the five base
fields of `BASE_FIELDS` is present with a non-`None` value; otherwise it
raises a `ValidationError` whose message lists every absent-or-null base
field, comma-joined, in `BASE_FIELDS` order (the order the `filter`
preserves). -/
theorem validate_result_spec (result : Dict) :
    (validate_result result = Except.ok () ↔
      ∀ f ∈ BASE_FIELDS, ∃ v, dictGet result f = some v ∧ v ≠ Value.null) ∧
    ((∃ f ∈ BASE_FIELDS, ¬ ∃ v, dictGet result f = some v ∧ v ≠ Value.null) →
      validate_result result =
        Except.error (("Missing required fields: ") ++
          String.intercalate (", ") (BASE_FIELDS.filter (fieldMissing result)))) := by
  constructor
  · rw [validate_result_ok_iff_bool]
    exact forall₂_congr (fun f _ => fieldMissing_false_iff result f)
  · intro hex
    have hne : ¬ (BASE_FIELDS.filter (fieldMissing result)).isEmpty = true := by
      rw [filter_isEmpty_iff]
      intro hall
      obtain ⟨f, hf, hv⟩ := hex
      exact hv ((fieldMissing_false_iff result f).mp (hall f hf))
    unfold validate_result
    simp [hne]

/-- C1 witness: a result with `source` present, `fee` bound to `None`
and the other base fields absent fails validation with a message naming
`destination`, `amount`, `fee` and `date`, in base-field order. -/
theorem validate_result_spec_witness :
    validate_result [(("source"), Value.str ("a")), (("fee"), Value.null)] =
      Except.error ("Missing required fields: destination, amount, fee, date") := by
  have h := (validate_result_spec [(("source"), Value.str ("a")), (("fee"), Value.null)]).2
  have hx : ∃ f ∈ BASE_FIELDS,
      ¬ ∃ v, dictGet [(("source"), Value.str ("a")), (("fee"), Value.null)] f = some v ∧
        v ≠ Value.null := by
    refine ⟨("destination"), by simp [BASE_FIELDS], ?_⟩
    simp [dictGet]
  exact (h hx).trans (by rfl)

/-- C3: the date-time combiner concatenates `<date>T<time>` when both a
date and a time are present, returns the date unmodified when only a
date is present, and returns `None` when no date is present, whatever
the time.  "Present" is the source's own notion: a truthy string, i.e.
non-`None` and non-empty (claim C10 covers the empty-string edge). -/
theorem combine_date_time_spec :
    (∀ d t : String, d ≠ ("") → t ≠ ("") →
      combine_date_time (some d) (some t) = some (d ++ ("T") ++ t)) ∧
    (∀ d : String, d ≠ ("") → combine_date_time (some d) none = some d) ∧
    (∀ t : Option String, combine_date_time none t = none) := by
  refine ⟨fun d t hd ht => ?_, fun d hd => ?_, fun t => ?_⟩
  · simp [combine_date_time, pyTruthyStr, hd, ht]
  · simp [combine_date_time, pyTruthyStr, hd]
  · simp [combine_date_time, pyTruthyStr]

/-- C3 witness: the three spec examples, evaluated. -/
theorem combine_date_time_spec_witness :
    combine_date_time (some ("2024-01-01")) (some ("11:44:30")) =
        some ("2024-01-01T11:44:30") ∧
    combine_date_time (some ("2024-01-01")) none = some ("2024-01-01") ∧
    combine_date_time none (some ("11:44:30")) = none := by
  refine ⟨?_, ?_, ?_⟩
  · exact (combine_date_time_spec.1 ("2024-01-01") ("11:44:30")
      (by decide) (by decide)).trans (by rfl)
  · exact combine_date_time_spec.2.1 ("2024-01-01") (by decide)
  · exact combine_date_time_spec.2.2 (some ("11:44:30"))

/-- C10: the combiner checks falsiness, not only `None`: an
empty-string date yields `None` whatever the time, and a present
(truthy) date with an empty-string time yields the date alone, with no
`T` suffix. -/
theorem combine_date_time_falsiness :
    (∀ t : Option String, combine_date_time (some ("")) t = none) ∧
    (∀ d : String, d ≠ ("") → combine_date_time (some d) (some ("")) = some d) := by
  constructor
  · intro t
    simp [combine_date_time, pyTruthyStr]
  · intro d hd
    simp [combine_date_time, pyTruthyStr, hd]

/-- C10 witness: the two falsiness cases at concrete inputs. -/
theorem combine_date_time_falsiness_witness :
    combine_date_time (some ("")) (some ("11:44:30")) = none ∧
    combine_date_time (some ("2024-01-01")) (some ("")) = some ("2024-01-01") :=
  ⟨combine_date_time_falsiness.1 (some ("11:44:30")),
   combine_date_time_falsiness.2 ("2024-01-01") (by decide)⟩

/-- C5: `check_compatibility` returns `True` exactly when the leading
dot-delimited (major) components agree as strings, whatever the
minor/patch parts; when they differ it raises a `VersionMismatchError`
carrying both version strings and a message naming both majors. -/
theorem check_compatibility_spec (cv sv : String) :
    (check_compatibility cv sv = Except.ok true ↔
      major_component cv = major_component sv) ∧
    (major_component cv ≠ major_component sv →
      ∃ e, check_compatibility cv sv = Except.error e ∧
        e.client_version = cv ∧ e.server_version = sv ∧
        ContainsSub (major_component cv) e.message ∧
        ContainsSub (major_component sv) e.message) := by
  constructor
  · unfold check_compatibility
    by_cases h : major_component cv = major_component sv
    · simp [h]
    · simp [h]
  · intro h
    refine ⟨VersionMismatchError.mk cv sv
      (("Incompatible versions. Client v") ++ major_component cv ++
        (".x.x cannot work with server v") ++ major_component sv ++
        (".x.x. Please install matching version.")), ?_, rfl, rfl, ?_, ?_⟩
    · unfold check_compatibility
      simp [h]
    · refine ⟨("Incompatible versions. Client v"),
        (".x.x cannot work with server v") ++ major_component sv ++
          (".x.x. Please install matching version."), ?_⟩
      simp [strAppend_assoc]
    · refine ⟨("Incompatible versions. Client v") ++ major_component cv ++
        (".x.x cannot work with server v"),
        (".x.x. Please install matching version."), ?_⟩
      simp [strAppend_assoc]

/-- C5 witness: equal majors `1.0.0` / `1.9.3` succeed; differing
majors `1.0.0` / `2.0.0` fail with an error carrying both strings and
naming both majors. -/
theorem check_compatibility_spec_witness :
    check_compatibility ("1.0.0") ("1.9.3") = Except.ok true ∧
    (∃ e, check_compatibility ("1.0.0") ("2.0.0") = Except.error e ∧
      e.client_version = ("1.0.0") ∧ e.server_version = ("2.0.0") ∧
      ContainsSub ("1") e.message ∧ ContainsSub ("2") e.message) := by
  constructor
  · exact (check_compatibility_spec ("1.0.0") ("1.9.3")).1.mpr (by decide)
  · exact (check_compatibility_spec ("1.0.0") ("2.0.0")).2 (by decide)

/-! ## The pattern loop: lookup and key-set lemmas -/

/-- One iteration of the `find_text_by_patterns` loop. -/
def patStep (search : ReEngine) (text : String) (result : Dict)
    (fp : String × String) : Dict :=
  match search fp.2 text IC_ML with
  | some m => dictSet result fp.1 (optToVal (matchValue m))
  | none => dictSet result fp.1 Value.null

/-- The value the loop stores for one pattern. -/
def searchValue (search : ReEngine) (text p : String) : Value :=
  match search p text IC_ML with
  | some m => optToVal (matchValue m)
  | none => Value.null

theorem patStep_eq (search : ReEngine) (text : String) (result : Dict)
    (fp : String × String) :
    patStep search text result fp =
      dictSet result fp.1 (searchValue search text fp.2) := by
  unfold patStep searchValue
  cases search fp.2 text IC_ML <;> rfl

theorem find_text_by_patterns_eq_foldl (search : ReEngine) (text : String)
    (patterns : List (String × String)) :
    find_text_by_patterns search text patterns =
      patterns.foldl (patStep search text) [] := by
  rfl

theorem dictGet_dictSet_self (d : Dict) (k : String) (v : Value) :
    dictGet (dictSet d k v) k = some v := by
  induction d with
  | nil => simp [dictSet, dictGet]
  | cons hd t ih =>
    obtain ⟨k', v'⟩ := hd
    by_cases h : k' = k
    · subst h
      simp [dictSet, dictGet]
    · simp [dictSet, dictGet, h, ih]

theorem dictGet_dictSet_ne (d : Dict) (k k2 : String) (v : Value)
    (h : k ≠ k2) : dictGet (dictSet d k v) k2 = dictGet d k2 := by
  induction d with
  | nil => simp [dictSet, dictGet, h]
  | cons hd t ih =>
    obtain ⟨k', v'⟩ := hd
    by_cases h2 : k' = k
    · subst h2
      simp [dictSet, dictGet, h]
    · simp [dictSet, dictGet, h2, ih]

theorem map_fst_dictSet (d : Dict) (k : String) (v : Value) :
    (dictSet d k v).map Prod.fst =
      if k ∈ d.map Prod.fst then d.map Prod.fst else d.map Prod.fst ++ [k] := by
  induction d with
  | nil => simp [dictSet]
  | cons hd t ih =>
    obtain ⟨k', v'⟩ := hd
    by_cases h : k' = k
    · subst h
      simp [dictSet]
    · have hne : ¬ k = k' := fun e => h e.symm
      by_cases hm : k ∈ t.map Prod.fst <;>
        simp [dictSet, h, ih, hm, hne]

theorem mem_dictSet (d : Dict) (k : String) (v : Value) (kv : String × Value)
    (h : kv ∈ dictSet d k v) : kv ∈ d ∨ kv.2 = v := by
  induction d with
  | nil =>
    simp [dictSet] at h
    subst h
    simp
  | cons hd t ih =>
    obtain ⟨k', v'⟩ := hd
    by_cases h2 : k' = k
    · subst h2
      simp [dictSet] at h
      rcases h with h | h
      · subst h
        simp
      · simp [h]
    · simp [dictSet, h2] at h
      rcases h with h | h
      · subst h
        simp
      · rcases ih h with h3 | h3
        · simp [h3]
        · simp [h3]

theorem dictGet_foldl_not_mem (search : ReEngine) (text : String)
    (l : List (String × String)) (acc : Dict) (f : String)
    (hf : f ∉ l.map Prod.fst) :
    dictGet (l.foldl (patStep search text) acc) f = dictGet acc f := by
  induction l generalizing acc with
  | nil => rfl
  | cons hd tl ih =>
    simp only [List.map_cons, List.mem_cons, not_or] at hf
    rw [List.foldl_cons, ih _ hf.2, patStep_eq,
      dictGet_dictSet_ne _ _ _ _ (fun e => hf.1 e.symm)]

theorem dictGet_foldl_mem (search : ReEngine) (text : String)
    (l : List (String × String)) (acc : Dict) (f p : String)
    (hnd : (l.map Prod.fst).Nodup) (hmem : (f, p) ∈ l) :
    dictGet (l.foldl (patStep search text) acc) f =
      some (searchValue search text p) := by
  induction l generalizing acc with
  | nil => cases hmem
  | cons hd tl ih =>
    simp only [List.map_cons, List.nodup_cons] at hnd
    rw [List.foldl_cons]
    rcases List.mem_cons.mp hmem with heq | hm
    · have hf : f ∉ tl.map Prod.fst := by
        rw [← heq] at hnd
        exact hnd.1
      rw [dictGet_foldl_not_mem _ _ _ _ _ hf, patStep_eq, ← heq,
        dictGet_dictSet_self]
    · exact ih _ hnd.2 hm

theorem foldl_keys (search : ReEngine) (text : String)
    (l : List (String × String)) (acc : Dict)
    (hnd : (l.map Prod.fst).Nodup)
    (hdisj : ∀ k ∈ l.map Prod.fst, k ∉ acc.map Prod.fst) :
    (l.foldl (patStep search text) acc).map Prod.fst =
      acc.map Prod.fst ++ l.map Prod.fst := by
  induction l generalizing acc with
  | nil => simp
  | cons hd tl ih =>
    simp only [List.map_cons, List.nodup_cons] at hnd
    rw [List.foldl_cons, patStep_eq]
    have hk : hd.1 ∉ acc.map Prod.fst := hdisj hd.1 (by simp)
    have hkeys : (dictSet acc hd.1 (searchValue search text hd.2)).map Prod.fst =
        acc.map Prod.fst ++ [hd.1] := by
      rw [map_fst_dictSet]
      simp [hk]
    rw [ih _ hnd.2, hkeys]
    · simp
    · intro k hkm
      rw [hkeys]
      simp only [List.mem_append, List.mem_singleton, not_or]
      refine ⟨hdisj k (by simp [hkm]), ?_⟩
      intro e
      exact hnd.1 (e ▸ hkm)

theorem searchValue_shape (search : ReEngine) (text p : String) :
    searchValue search text p = Value.null ∨
      ∃ s, searchValue search text p = Value.str s := by
  unfold searchValue
  cases h : search p text IC_ML with
  | none => simp
  | some m =>
    cases hm : matchValue m with
    | none => simp [optToVal, hm]
    | some s => simp [optToVal, hm]

theorem foldl_values (search : ReEngine) (text : String)
    (l : List (String × String)) (acc : Dict)
    (hacc : ∀ kv ∈ acc, kv.2 = Value.null ∨ ∃ s, kv.2 = Value.str s) :
    ∀ kv ∈ l.foldl (patStep search text) acc,
      kv.2 = Value.null ∨ ∃ s, kv.2 = Value.str s := by
  induction l generalizing acc with
  | nil => exact hacc
  | cons hd tl ih =>
    rw [List.foldl_cons, patStep_eq]
    refine ih _ (fun kv hkv => ?_)
    rcases mem_dictSet _ _ _ _ hkv with h | h
    · exact hacc kv h
    · rw [h]
      exact searchValue_shape search text hd.2

/-- C4: for every text and caller-supplied pattern set (a Python dict,
hence distinct names), each named pattern is searched independently with
`IGNORECASE | MULTILINE`; the field's value is group 1 when the pattern
has capturing groups, the whole match otherwise, and `None` when the
search finds nothing — the loop is total, so a non-matching pattern can
never raise. -/
theorem find_text_by_patterns_spec (search : ReEngine) (text : String)
    (patterns : List (String × String)) (f p : String)
    (hnd : (patterns.map Prod.fst).Nodup) (hmem : (f, p) ∈ patterns) :
    dictGet (find_text_by_patterns search text patterns) f =
      some (match search p text IC_ML with
            | some m => optToVal (matchValue m)
            | none => Value.null) := by
  rw [find_text_by_patterns_eq_foldl]
  exact dictGet_foldl_mem search text patterns [] f p hnd hmem

/-- C4 witness: on a text with no digits, the `commission` entry of the
built-in pattern set maps to `None` (and nothing is raised: the loop
returned a dict). -/
theorem find_text_by_patterns_spec_witness :
    dictGet (find_text_by_patterns receiptSearch ("нет данных") RECEIPT_PATTERNS)
        ("commission") = some Value.null := by
  have h := find_text_by_patterns_spec receiptSearch ("нет данных")
    RECEIPT_PATTERNS ("commission") commissionPat (by decide) (by decide)
  exact h.trans (by rfl)

/-- C9: the mapping `find_text_by_patterns` returns binds exactly the
supplied pattern names — same keys, in order, nothing else — and every
value is a string or `None`. -/
theorem find_text_by_patterns_keys (search : ReEngine) (text : String)
    (patterns : List (String × String))
    (hnd : (patterns.map Prod.fst).Nodup) :
    (find_text_by_patterns search text patterns).map Prod.fst =
        patterns.map Prod.fst ∧
    ∀ kv ∈ find_text_by_patterns search text patterns,
      kv.2 = Value.null ∨ ∃ s, kv.2 = Value.str s := by
  rw [find_text_by_patterns_eq_foldl]
  constructor
  · simpa using foldl_keys search text patterns [] hnd (by simp)
  · exact foldl_values search text patterns [] (by simp)

/-- C9 witness: the built-in pattern set, searched over a concrete
text, yields exactly the six pattern names as keys. -/
theorem find_text_by_patterns_keys_witness :
    (find_text_by_patterns receiptSearch ("чек") RECEIPT_PATTERNS).map Prod.fst =
        RECEIPT_PATTERNS.map Prod.fst ∧
    ∀ kv ∈ find_text_by_patterns receiptSearch ("чек") RECEIPT_PATTERNS,
      kv.2 = Value.null ∨ ∃ s, kv.2 = Value.str s :=
  find_text_by_patterns_keys receiptSearch ("чек") RECEIPT_PATTERNS (by decide)

/-- C7: on a non-searchable document the local path returns the scanned
short-circuit record — `success=false`, `is_scanned=true`, an error
message naming OCR — and that record is one constant, independent of the
search engine and of every extraction outcome, so pattern extraction is
never invoked on such a document. -/
theorem process_pdf_locally_scanned (search : ReEngine) (pe : PdfExtract)
    (h : is_searchable_pdf pe = false) :
    process_pdf_locally search pe =
      [(("success"), Value.bool false),
       (("error"), Value.str ("PDF содержит сканированное изображение. Требуется OCR.")),
       (("source"), Value.str ("pdf")),
       (("is_scanned"), Value.bool true)] ∧
    dictGet (process_pdf_locally search pe) ("success") = some (Value.bool false) ∧
    dictGet (process_pdf_locally search pe) ("is_scanned") = some (Value.bool true) ∧
    (∃ msg, dictGet (process_pdf_locally search pe) ("error") = some (Value.str msg) ∧
      ContainsSub ("OCR") msg) := by
  have he : process_pdf_locally search pe =
      [(("success"), Value.bool false),
       (("error"), Value.str ("PDF содержит сканированное изображение. Требуется OCR.")),
       (("source"), Value.str ("pdf")),
       (("is_scanned"), Value.bool true)] := by
    unfold process_pdf_locally
    simp [h]
  refine ⟨he, ?_, ?_, ?_⟩
  · rw [he]; rfl
  · rw [he]; rfl
  · refine ⟨("PDF содержит сканированное изображение. Требуется OCR."), by rw [he]; rfl, ?_⟩
    exact ⟨("PDF содержит сканированное изображение. Требуется "), ("."), by rfl⟩

/-- C7 witness: a document whose pages hold no text is not searchable;
the local path returns the scanned record for it. -/
theorem process_pdf_locally_scanned_witness :
    dictGet (process_pdf_locally receiptSearch
        (PdfExtract.mk (Except.ok []) (Except.ok ("")) (Except.ok (Value.vlist []))))
        ("is_scanned") = some (Value.bool true) ∧
    dictGet (process_pdf_locally receiptSearch
        (PdfExtract.mk (Except.ok []) (Except.ok ("")) (Except.ok (Value.vlist []))))
        ("success") = some (Value.bool false) := by
  have h := process_pdf_locally_scanned receiptSearch
    (PdfExtract.mk (Except.ok []) (Except.ok ("")) (Except.ok (Value.vlist []))) (by rfl)
  exact ⟨h.2.2.1, h.2.1⟩

/-- C6: every failure inside the local PDF path — a document that fails
to open (`pages`), a raising `extract_text_from_pdf` or a raising
`extract_text_with_positions` — is converted into a returned dict with
`success=false` and an error string, never propagated (the local path is
a total function into `Dict`); remote-path failures, in contrast, are
raised as typed errors: network failures and non-200 responses and
undecodable JSON bodies as `APIError`, missing base fields as
`ValidationError`. -/
theorem failure_containment_spec :
    (∀ (search : ReEngine) (pe : PdfExtract),
      ((∃ e, pe.pages = Except.error e) ∨ (∃ e, pe.extract_text = Except.error e) ∨
        (∃ e, pe.positioned = Except.error e)) →
      dictGet (process_pdf_locally search pe) ("success") = some (Value.bool false) ∧
      ∃ s, dictGet (process_pdf_locally search pe) ("error") = some (Value.str s)) ∧
    (∀ m, send_to_api (HttpOutcome.requestException m) =
      Except.error (ClientError.apiError (("Network error: ") ++ m))) ∧
    (∀ r : HttpResponse, r.status_code ≠ 200 →
      ∃ msg, send_to_api (HttpOutcome.resp r) =
        Except.error (ClientError.apiError msg)) ∧
    (∀ (sc : Nat) (jm : String),
      send_to_api (HttpOutcome.resp (HttpResponse.mk sc (Except.error jm))) =
        Except.error (ClientError.apiError (("Invalid JSON response: ") ++ jm))) ∧
    (∀ (body : Dict) (vm : String),
      validate_result (asDict ((dictGet body ("data")).getD (Value.vdict []))) =
        Except.error vm →
      send_to_api (HttpOutcome.resp (HttpResponse.mk 200 (Except.ok body))) =
        Except.error (ClientError.validationError vm)) := by
  refine ⟨?_, ?_, ?_, ?_, ?_⟩
  · intro search pe h
    by_cases hs : is_searchable_pdf pe = false
    · refine ⟨?_, ("PDF содержит сканированное изображение. Требуется OCR."), ?_⟩ <;>
        simp [process_pdf_locally, hs, dictGet]
    · have hpages : ¬ ∃ e, pe.pages = Except.error e := by
        rintro ⟨e, he⟩
        exact hs (by simp [is_searchable_pdf, he])
      have hbody : ∃ e, process_receipt_pdf_body search pe true = Except.error e := by
        rcases h with h | h | h
        · exact absurd h hpages
        · obtain ⟨e, he⟩ := h
          exact ⟨e, by simp [process_receipt_pdf_body, he, Bind.bind, Except.bind]⟩
        · obtain ⟨e, he⟩ := h
          cases hx : pe.extract_text with
          | error e2 =>
            exact ⟨e2, by simp [process_receipt_pdf_body, hx, Bind.bind, Except.bind]⟩
          | ok t =>
            exact ⟨e, by simp [process_receipt_pdf_body, hx, he, Bind.bind, Except.bind]⟩
      obtain ⟨e, he⟩ := hbody
      have hr : process_receipt_pdf search pe true =
          [(("error"), Value.str e), (("success"), Value.bool false)] := by
        simp [process_receipt_pdf, he]
      unfold process_pdf_locally
      rw [if_neg hs, hr]
      refine ⟨by rfl, e, by rfl⟩
  · intro m
    rfl
  · intro r h
    cases hj : r.json with
    | ok error_data =>
      exact ⟨api_error_message r.status_code error_data, by simp [send_to_api, h, hj]⟩
    | error jm =>
      exact ⟨("Invalid JSON response: ") ++ jm, by simp [send_to_api, h, hj]⟩
  · intro sc jm
    by_cases h : sc = 200 <;> simp [send_to_api, h]
  · intro body vm hv
    simp [send_to_api, hv]

/-- C6 witness: a document whose text extraction raises is reported as
a failed result, not an exception; a 401 response, a network failure, an
undecodable body and a 200 response with an empty `data` object each
raise the typed error. -/
theorem failure_containment_spec_witness :
    (dictGet (process_pdf_locally receiptSearch
        (PdfExtract.mk (Except.ok []) (Except.error ("boom")) (Except.ok (Value.vlist []))))
        ("success") = some (Value.bool false) ∧
      ∃ s, dictGet (process_pdf_locally receiptSearch
        (PdfExtract.mk (Except.ok []) (Except.error ("boom")) (Except.ok (Value.vlist []))))
        ("error") = some (Value.str s)) ∧
    send_to_api (HttpOutcome.requestException ("timeout")) =
      Except.error (ClientError.apiError ("Network error: timeout")) ∧
    (∃ msg, send_to_api (HttpOutcome.resp (HttpResponse.mk 401
        (Except.ok [(("error"), Value.str ("Invalid token"))]))) =
      Except.error (ClientError.apiError msg)) ∧
    send_to_api (HttpOutcome.resp (HttpResponse.mk 200 (Except.error ("bad json")))) =
      Except.error (ClientError.apiError ("Invalid JSON response: bad json")) ∧
    send_to_api (HttpOutcome.resp (HttpResponse.mk 200
        (Except.ok [(("data"), Value.vdict [])]))) =
      Except.error (ClientError.validationError
        ("Missing required fields: source, destination, amount, fee, date")) := by
  refine ⟨?_, ?_, ?_, ?_, ?_⟩
  · exact failure_containment_spec.1 receiptSearch
      (PdfExtract.mk (Except.ok []) (Except.error ("boom")) (Except.ok (Value.vlist [])))
      (Or.inr (Or.inl ⟨("boom"), rfl⟩))
  · exact failure_containment_spec.2.1 ("timeout")
  · exact failure_containment_spec.2.2.1
      (HttpResponse.mk 401 (Except.ok [(("error"), Value.str ("Invalid token"))])) (by decide)
  · exact failure_containment_spec.2.2.2.1 200 ("bad json")
  · exact failure_containment_spec.2.2.2.2 [(("data"), Value.vdict [])]
      ("Missing required fields: source, destination, amount, fee, date") (by rfl)

/-- The `mapped` sub-dict the local path produces for the scenario
receipt. -/
def scenarioMapped : Dict :=
  asDict ((dictGet (process_pdf_locally receiptSearch scenarioPdf) ("mapped")).getD Value.null)

/-- C2 counterexample: on the scenario receipt (a searchable PDF whose
text contains `Комиссия: 87.00` and `8700.00 руб`), the local path maps
`amount` to the raw matched string `"8700.00"`; that value is not the
numeric 8700.00 the claim asserts — `_process_pdf_locally` performs no
numeric coercion (the `float` coercion lives only in `core.py`'s
separate client). -/
theorem local_mapping_not_numeric :
    dictGet scenarioMapped ("amount") = some (Value.str ("8700.00")) ∧
    some (Value.str ("8700.00")) ≠ some (Value.num (8700 : ℚ)) :=
  ⟨by rfl, fun h => Value.noConfusion (Option.some.inj h)⟩

/-- C2 (amended): in the local PDF path's field mapping the mapped
`amount` equals the pattern-extracted `amount` unchanged (the matched
string, or null) and the mapped `fee` equals the extracted `commission`
unchanged; for the scenario receipt the mapping yields
`amount="8700.00"` (a string), `fee="87.00"`, `source=null`,
`destination=null`, and the result has `is_scanned=false`. -/
theorem local_mapping_spec :
    (∀ ext res : Dict,
      dictGet (mapped_result ext res) ("amount") =
          some ((dictGet ext ("amount")).getD Value.null) ∧
      dictGet (mapped_result ext res) ("fee") =
          some ((dictGet ext ("commission")).getD Value.null) ∧
      dictGet (mapped_result ext res) ("source") = some Value.null ∧
      dictGet (mapped_result ext res) ("destination") = some Value.null) ∧
    (dictGet scenarioMapped ("amount") = some (Value.str ("8700.00")) ∧
     dictGet scenarioMapped ("fee") = some (Value.str ("87.00")) ∧
     dictGet scenarioMapped ("source") = some Value.null ∧
     dictGet scenarioMapped ("destination") = some Value.null ∧
     dictGet (process_pdf_locally receiptSearch scenarioPdf) ("is_scanned") =
         some (Value.bool false)) := by
  exact ⟨fun ext res => ⟨rfl, rfl, rfl, rfl⟩, by rfl, by rfl, by rfl, by rfl, by rfl⟩

/-- C8 counterexample: the record the local path returns for a
non-searchable document has no `amount` key at all, so a `recognize`
result does not always include the five base fields as keys. -/
theorem recognize_fields_counterexample :
    dictGet (process_pdf_locally receiptSearch
      (PdfExtract.mk (Except.ok []) (Except.ok ("")) (Except.ok (Value.vlist []))))
      ("amount") = none := by rfl

/-- C8 (amended): every local-path result carries the provenance tag
`source="pdf"`; the five base fields appear as keys (possibly null) in
the `mapped` sub-mapping the local path attaches, not at the result's
top level; every remote-path success contains the five base fields with
non-null values (enforced by validation) but is the server's `data`
object returned unchanged — no provenance tag is added on the remote
path. -/
theorem recognize_provenance_spec :
    (∀ (search : ReEngine) (pe : PdfExtract),
      dictGet (process_pdf_locally search pe) ("source") = some (Value.str ("pdf"))) ∧
    (∀ ext res : Dict, ∀ f ∈ BASE_FIELDS,
      dictContains (mapped_result ext res) f = true) ∧
    (∀ (outcome : HttpOutcome) (d : Dict), send_to_api outcome = Except.ok d →
      ∀ f ∈ BASE_FIELDS, ∃ v, dictGet d f = some v ∧ v ≠ Value.null) ∧
    (∀ (body : Dict) (d : Dict),
      send_to_api (HttpOutcome.resp (HttpResponse.mk 200 (Except.ok body))) =
          Except.ok d →
      d = asDict ((dictGet body ("data")).getD (Value.vdict []))) := by
  refine ⟨?_, ?_, ?_, ?_⟩
  · intro search pe
    by_cases hs : is_searchable_pdf pe = false
    · simp [process_pdf_locally, hs, dictGet]
    · unfold process_pdf_locally
      rw [if_neg hs]
      unfold tag_local_result
      by_cases hc : dictContains (dictSet (dictSet (dictSet
          (process_receipt_pdf search pe true) ("source") (Value.str ("pdf")))
          ("is_scanned") (Value.bool false)) ("success")
          (Value.bool (!(dictContains (dictSet (dictSet
            (process_receipt_pdf search pe true) ("source") (Value.str ("pdf")))
            ("is_scanned") (Value.bool false)) ("error"))))) ("extracted") = true
      · rw [if_pos hc]
        rw [dictGet_dictSet_ne _ _ _ _ (by decide),
          dictGet_dictSet_ne _ _ _ _ (by decide),
          dictGet_dictSet_ne _ _ _ _ (by decide), dictGet_dictSet_self]
      · rw [if_neg hc]
        rw [dictGet_dictSet_ne _ _ _ _ (by decide),
          dictGet_dictSet_ne _ _ _ _ (by decide), dictGet_dictSet_self]
  · intro ext res f hf
    simp only [BASE_FIELDS, List.mem_cons, List.mem_singleton,
      List.not_mem_nil, or_false] at hf
    rcases hf with rfl | rfl | rfl | rfl | rfl <;> rfl
  · intro outcome d h
    cases outcome with
    | requestException m => simp [send_to_api] at h
    | resp r =>
      rcases r with ⟨sc, js⟩
      by_cases hsc : sc = 200
      · subst hsc
        cases js with
        | error jm => simp [send_to_api] at h
        | ok body =>
          cases hv : validate_result
              (asDict ((dictGet body ("data")).getD (Value.vdict []))) with
          | error vm => simp [send_to_api, hv] at h
          | ok u =>
            have hok : validate_result
                (asDict ((dictGet body ("data")).getD (Value.vdict []))) =
                Except.ok () := by
              cases u
              exact hv
            have hd : d = asDict ((dictGet body ("data")).getD (Value.vdict [])) := by
              simp [send_to_api, hv] at h
              exact h.symm
            subst hd
            intro f hf
            exact (fieldMissing_false_iff _ f).mp
              ((validate_result_ok_iff_bool _).mp hok f hf)
      · cases js with
        | error jm => simp [send_to_api, hsc] at h
        | ok body => simp [send_to_api, hsc] at h
  · intro body d h
    cases hv : validate_result
        (asDict ((dictGet body ("data")).getD (Value.vdict []))) with
    | error vm => simp [send_to_api, hv] at h
    | ok u =>
      simp [send_to_api, hv] at h
      exact h.symm

/-- The `data` object of a successful remote response, with all five
base fields non-null (mirrors the repository's `test_recognize_success`
fixture). -/
def apiData : Dict :=
  [(("source"), Value.str ("MIR ****1723")),
   (("destination"), Value.str ("****2853")),
   (("amount"), Value.num (8700 : ℚ)),
   (("fee"), Value.num (87 : ℚ)),
   (("date"), Value.str ("2020-03-31T11:44:30"))]

/-- A successful remote response body wrapping `apiData`. -/
def apiBody : Dict := [(("data"), Value.vdict apiData)]

/-- C8 (amended) witness: the provenance tag on a concrete local
result, a base-field key of a concrete mapping, and a concrete
successful remote call returning `apiData` unchanged with `amount`
non-null. -/
theorem recognize_provenance_spec_witness :
    dictGet (process_pdf_locally receiptSearch scenarioPdf) ("source") =
        some (Value.str ("pdf")) ∧
    dictContains (mapped_result [] []) ("amount") = true ∧
    (∃ v, dictGet apiData ("amount") = some v ∧ v ≠ Value.null) ∧
    apiData = asDict ((dictGet apiBody ("data")).getD (Value.vdict [])) := by
  refine ⟨recognize_provenance_spec.1 receiptSearch scenarioPdf,
    recognize_provenance_spec.2.1 [] [] ("amount") (by decide),
    recognize_provenance_spec.2.2.1
      (HttpOutcome.resp (HttpResponse.mk 200 (Except.ok apiBody))) apiData
      (by rfl) ("amount") (by decide),
    recognize_provenance_spec.2.2.2 apiBody apiData (by rfl)⟩

/-! Sanity checks of the embedding on concrete inputs. -/

example : reSearch amountRE IC_ML ("всего 8700.00 руб.") =
    some (("8700.00 руб"), some ("8700.00")) := by rfl

example : reSearch commissionRE IC_ML ("Комиссия: 87.00") =
    some (("Комиссия: 87.00"), some ("87.00")) := by rfl

example : reSearch dateRE IC_ML ("Комиссия: 87.00 и 8700.00 руб") = none := by rfl

example : reSearch timeRE IC_ML ("в 11:44:30 утра") =
    some (("11:44:30"), some ("11:44:30")) := by rfl

example : reSearch operation_idRE IC_ML ("номер: 123456") =
    some (("номер: 123456"), some ("123456")) := by rfl

example : reSearch card_numberRE IC_ML ("карта **** 1234") =
    some (("**** 1234"), some ("**** 1234")) := by rfl

example : validate_result [(("source"), Value.str ("a"))] =
    Except.error (("Missing required fields: ") ++ ("destination, amount, fee, date")) := by
  rfl

example : combine_date_time (some ("2024-01-01")) (some ("11:44:30")) =
    some ("2024-01-01T11:44:30") := by rfl

example : combine_date_time (some ("")) (some ("11:44:30")) = none := by rfl

example : check_compatibility ("1.0.0") ("1.9.3") = Except.ok true := by rfl
